import Mathlib

/-!
Shallow embedding of the Lighthouse-Bulk-Scan repository (Python) in Lean 4.

Each definition mirrors one function of the source:
  * `lighthouse_bulk_scan/sitemap.py`  : `NON_HTML_EXTENSIONS`, `is_html_page`, `parse_sitemap`
  * `lighthouse_bulk_scan/cli.py`      : `parse_display_value`, URL gathering, summary table
  * `lighthouse_bulk_scan/runner.py`   : `run_lighthouse` (flags, output path, outcome handling)
  * `report_parser.py`                 : `extract_detailed_data`
  * `auto_lighthouse.py`, `auto_lighthouse_2.py`, `auto_lighthouse_pypeteer.py` variants
    where a claim cites them.

External effects (HTTP fetches, the subprocess, the file system) are passed in
explicitly as environments; machine-level floats are modelled by `ℚ` (all the
numbers involved are exact decimals).  String primitives (`lower`, `endswith`,
`replace`, `in`, `strip`, `split`) are given explicit structural definitions on
character lists so that every definition evaluates by kernel reduction.
-/

namespace LighthouseBulkScan

/-! ### String primitives (models of the Python built-ins) -/

/-- Python `str.lower` (ASCII case folding suffices for the inputs involved). -/
def strLower (s : String) : String := String.mk (s.data.map Char.toLower)

/-- Python `str.endswith`. -/
def strEndsWith (s suffix : String) : Bool := suffix.data.isSuffixOf s.data

/-- Python `needle in hay` (substring containment). -/
def containsSub (needle : List Char) : List Char → Bool
  | [] => needle.isEmpty
  | c :: rest => needle.isPrefixOf (c :: rest) || containsSub needle rest

/-- Python `needle in hay` on strings. -/
def strContains (hay needle : String) : Bool := containsSub needle.data hay.data

/-- One fuel-indexed step of Python `str.replace` (replace every occurrence,
scanning left to right); `fuel ≥ hay.length` makes the fuel clause unreachable. -/
def replaceAllAux (needle repl : List Char) : Nat → List Char → List Char
  | _, [] => []
  | 0, hay => hay
  | fuel + 1, c :: rest =>
      if 0 < needle.length && needle.isPrefixOf (c :: rest) then
        repl ++ replaceAllAux needle repl fuel ((c :: rest).drop needle.length)
      else
        c :: replaceAllAux needle repl fuel rest

/-- Python `s.replace(pat, rep)`. -/
def pyReplace (s pat rep : String) : String :=
  String.mk (replaceAllAux pat.data rep.data s.data.length s.data)

/-- Python `str.strip()` (whitespace trim at both ends). -/
def pyStrip (s : String) : String :=
  String.mk
    (((s.data.dropWhile Char.isWhitespace).reverse.dropWhile Char.isWhitespace).reverse)

/-- Python `s.split('.')` restricted to the single-character separator used by
the code (never returns an empty list). -/
def splitOnDot : List Char → List (List Char)
  | [] => [[]]
  | c :: rest =>
      if c = '.' then [] :: splitOnDot rest
      else
        match splitOnDot rest with
        | [] => [[c]]
        | p :: ps => (c :: p) :: ps

/-! ### sitemap.py : extension filter -/

/-- The denylist of non-HTML asset suffixes, verbatim from
`lighthouse_bulk_scan/sitemap.py` (identical to the list in
`auto_lighthouse_2.py`). -/
def NON_HTML_EXTENSIONS : List String :=
  [".jpg", ".jpeg", ".png", ".gif", ".bmp", ".svg", ".webp",
   ".pdf", ".doc", ".docx", ".xls", ".xlsx", ".ppt", ".pptx",
   ".zip", ".rar", ".exe", ".dmg", ".mp3", ".mp4", ".avi", ".mov",
   ".flv", ".wmv", ".mkv", ".ogg", ".ogv", ".webm", ".mpg", ".mpeg"]

/-- `sitemap.py:is_html_page`:
`return not any(url.lower().endswith(ext) for ext in NON_HTML_EXTENSIONS)`. -/
def is_html_page (url : String) : Bool :=
  !(NON_HTML_EXTENSIONS.any fun ext => strEndsWith (strLower url) ext)

/-! ### cli.py : parse_display_value -/

/-- Value of a digit string read in base 10 (used to model Python `float` on
digit/dot strings). -/
def digitsToNat (l : List Char) : Nat :=
  l.foldl (fun a c => 10 * a + (c.toNat - 48)) 0

/-- Model of Python `float(s)` restricted to strings built from digits and
dots (the only strings `parse_display_value` feeds it): defined iff the string
has at most one dot and at least one digit; `"5."` and `".5"` are accepted;
`""`, `"."`, `"1.2.3"` raise `ValueError` (modelled as `none`). -/
def pyFloatOfDigitsDots (s : String) : Option ℚ :=
  match splitOnDot s.data with
  | [ip] =>
      if !ip.isEmpty && ip.all (fun c => c.isDigit) then
        some (digitsToNat ip : ℚ)
      else none
  | [ip, fp] =>
      if !(ip.isEmpty && fp.isEmpty)
          && ip.all (fun c => c.isDigit) && fp.all (fun c => c.isDigit) then
        some ((digitsToNat ip : ℚ) + (digitsToNat fp : ℚ) / (10 : ℚ) ^ fp.length)
      else none
  | _ => none

/-- The characters `re.sub(r'[^0-9.]', '', val)` keeps. -/
def keepNumericChar (c : Char) : Bool := c.isDigit || c == '.'

/-- `re.sub(r'[^0-9.]', '', val)`: drop every character other than digits and
the decimal point. -/
def stripNonNumeric (s : String) : String :=
  String.mk (s.data.filter keepNumericChar)

/-- `cli.py:parse_display_value`.  An absent value is `none`; `if not val`
sends `None` and `""` to `None`; otherwise strip non-numeric characters and
parse as float, `ValueError` (or an empty remainder) giving `None`. -/
def parse_display_value (val : Option String) : Option ℚ :=
  match val with
  | none => none
  | some v =>
      if v.isEmpty then none
      else pyFloatOfDigitsDots (stripNonNumeric v)

/-! ### runner.py : run_lighthouse -/

/-- The pinned profile directory (`/tmp/lighthouse_profile` on posix,
`C:\lighthouse_profile` on Windows); the claims do not depend on its value, so
the posix constant is used. -/
def custom_profile_dir : String := "/tmp/lighthouse_profile"

/-- The `--chrome-flags=...` entry `run_lighthouse` appends when the caller
supplied none: headless, disable-gpu, disable-dev-shm-usage, no-sandbox and
the pinned user-data directory. -/
def defaultChromeFlagsEntry : String :=
  "--chrome-flags=\"--headless --disable-gpu --disable-dev-shm-usage --no-sandbox --user-data-dir=\"" ++ custom_profile_dir ++ "\"\""

/-- The in-place mutation of `extra_flags` in `runner.py:run_lighthouse`
(lines 54–63): if no element contains the substring `--chrome-flags`, append
the default entry; otherwise leave the list unchanged.  The returned list is
the value of the caller's (aliased) list after the call. -/
def ensureChromeFlags (extra_flags : List String) : List String :=
  if !(extra_flags.any fun f => strContains f "--chrome-flags") then
    extra_flags ++ [defaultChromeFlagsEntry]
  else
    extra_flags

/-- The sanitized file stem in `runner.py:run_lighthouse` (lines 65–73):
strip the scheme prefixes and replace `/`, `?`, `&`, `:` by `_`
(Python `str.replace` replaces every occurrence). -/
def safe_url (url : String) : String :=
  pyReplace (pyReplace (pyReplace (pyReplace (pyReplace (pyReplace url
    "https://" "") "http://" "") "/" "_") "?" "_") "&" "_") ":" "_"

/-- `os.path.join(output_dir, f"{safe_url}_{mode}.json")` (posix join with a
relative second component). -/
def out_file (output_dir url mode : String) : String :=
  output_dir ++ "/" ++ safe_url url ++ "_" ++ mode ++ ".json"

/-! ### Sitemap resolution

The HTTP layer is an explicit environment `String → Fetched`: fetching a URL
either raises a non-HTTP `requests` exception (connection error, timeout),
raises `HTTPError` from `raise_for_status()`, or yields a document.  A document
is classified as a malformed sitemap-index (bytes containing `<sitemapindex`
that strict XML parsing rejects — `ET.fromstring` raises, while the lenient
`BeautifulSoup` parsers find no tags in it), a sitemap index (one entry per
`<sitemap>` child), or a leaf sitemap (one entry per `<url>` child, carrying
the `<loc>` tag's text when the tag exists).

An index child records what the two XML libraries see of its `<loc>` element:
whether the element exists, whether it has child elements (an
`xml.etree.ElementTree` element is *falsy when childless*, so `sitemap.py`'s
`if loc and loc.text` guard skips every ordinary text-only `<loc>`), and its
ElementTree `.text` (the text before the first child element, `None` when
absent).  BeautifulSoup's `.text`, used by the `auto_lighthouse*` variants,
is the element's string content, `""` when there is none.

Recursion is fuel-indexed; a result of `none` means the recursion has not
terminated within the given fuel (the source has no depth or cycle guard). -/

/-- One `<sitemap>` entry of a sitemap index: no `<loc>` element, or a `<loc>`
element with its ElementTree view (has-child-elements flag and leading text). -/
inductive IndexChild where
  | noLoc
  | loc (hasChildElements : Bool) (text : Option String)
deriving DecidableEq

/-- The `if loc and loc.text` guard of `sitemap.py`'s index branch on an
ElementTree `<loc>` element: a childless element is falsy, so the child is
skipped unless the element has child elements *and* non-`None`, non-empty
text; returns the text exactly when the guard passes. -/
def IndexChild.etLocText : IndexChild → Option String
  | .noLoc => none
  | .loc false _ => none
  | .loc true none => none
  | .loc true (some s) => if s.isEmpty then none else some s

/-- `sitemap.find('loc')` + `.text` as BeautifulSoup delivers it (used by
`auto_lighthouse.py` and `auto_lighthouse_2.py`): `none` when the `<loc>` tag
is missing (`.text` then raises `AttributeError`), otherwise the tag's string
content (`""` when it has none). -/
def IndexChild.bsLocText : IndexChild → Option String
  | .noLoc => none
  | .loc _ t => some (t.getD "")

/-- A fetched sitemap document, classified.  A leaf entry is the BeautifulSoup
text of the `<url>` entry's `<loc>` tag, `none` when the tag is missing. -/
inductive SitemapDoc where
  | malformedIndexXml
  | index (children : List IndexChild)
  | leaf (locs : List (Option String))
deriving DecidableEq

/-- Outcome of `requests.get` + `raise_for_status` for one URL. -/
inductive Fetched where
  | fetchError
  | httpError
  | doc (d : SitemapDoc)
deriving DecidableEq

/-- The Python exceptions the sitemap/report code can raise. -/
inductive PyErr where
  | requestError
  | httpError
  | xmlParseError
  | attributeError
  | keyError
  | ioError
  | jsonDecodeError
deriving DecidableEq

/-- One step of `sitemap.py`'s index loop: a child whose `<loc>` fails the
`if loc and loc.text` guard is skipped; otherwise the loop runs
`urls.extend(parse_sitemap(loc.text.strip()))`.  An accumulator of `none`
propagates fuel exhaustion out of an earlier child. -/
def etIndexStep (recurse : String → Option (List String))
    (acc : Option (List String)) (ch : IndexChild) : Option (List String) :=
  match acc, ch.etLocText with
  | none, _ => none
  | some l, none => some l
  | some l, some s =>
      match recurse (pyStrip s) with
      | none => none
      | some l2 => some (l ++ l2)

/-- The `try`-body of `lighthouse_bulk_scan/sitemap.py:parse_sitemap` with the
raising operations explicit: fetch failures and strict-XML failures raise; an
index document runs `etIndexStep` over its children (recursing only on
children whose ElementTree `<loc>` element is truthy with truthy text); a leaf
document keeps each `<url>` entry whose BeautifulSoup `<loc>` tag exists with
truthy text (`if loc and loc.text` — a BeautifulSoup tag is truthy iff it has
contents, and then its `.text` must be non-empty), stripped and passing
`is_html_page`.  `recurse` is the surrounding (catching) function, exactly as
in the source; an inner `none` propagates fuel exhaustion. -/
def parse_sitemap_body (env : String → Fetched)
    (recurse : String → Option (List String)) (url : String) :
    Except PyErr (Option (List String)) :=
  match env url with
  | .fetchError => .error .requestError
  | .httpError => .error .httpError
  | .doc .malformedIndexXml => .error .xmlParseError
  | .doc (.index children) =>
      .ok (children.foldl (etIndexStep recurse) (some []))
  | .doc (.leaf locs) =>
      .ok (some (((((locs.filterMap id).filter
        (fun s => !s.isEmpty)).map pyStrip).filter is_html_page)))

/-- `lighthouse_bulk_scan/sitemap.py:parse_sitemap`: the body wrapped in
`except Exception: return urls` (every exception occurs before any URL is
accumulated, so the caught value is the empty list). -/
def parse_sitemap (env : String → Fetched) : Nat → String → Option (List String)
  | 0, _ => none
  | fuel + 1, url =>
      match parse_sitemap_body env (parse_sitemap env fuel) url with
      | .error _ => some []
      | .ok r => r

/-- `auto_lighthouse.py:is_html_page` (the allowlist variant):
`any(url.lower().endswith(ext) for ext in ['.html', '.htm', '/'])`. -/
def is_html_pageB (url : String) : Bool :=
  [".html", ".htm", "/"].any fun ext => strEndsWith (strLower url) ext

/-- `auto_lighthouse.py:parse_sitemap` (lines 51–70).  `except HTTPError`
returns `[]`; `except Exception` logs and *re-raises*, so a connection error,
a missing `<loc>` on an index child (`sitemap.find('loc').text` raises
`AttributeError`), or an error propagated out of a recursive child call all
escape to the caller.  `BeautifulSoup` is lenient, so malformed bytes parse to
a document with no tags (the leaf branch with no `<loc>` entries). -/
def parse_sitemapB (env : String → Fetched) :
    Nat → String → Option (Except PyErr (List String))
  | 0, _ => none
  | fuel + 1, url =>
      match env url with
      | .fetchError => some (.error .requestError)
      | .httpError => some (.ok [])
      | .doc .malformedIndexXml => some (.ok [])
      | .doc (.index children) =>
          children.foldl
            (fun acc ch =>
              match acc with
              | none => none
              | some (.error e) => some (.error e)
              | some (.ok l) =>
                  match ch.bsLocText with
                  | none => some (.error .attributeError)
                  | some s =>
                      match parse_sitemapB env fuel s with
                      | none => none
                      | some (.error e) => some (.error e)
                      | some (.ok l2) => some (.ok (l ++ l2)))
            (some (.ok []))
      | .doc (.leaf locs) =>
          some (.ok ((locs.filterMap id).filter is_html_pageB))

/-- One level of `auto_lighthouse_2.py:parse_sitemap`'s index comprehension:
`none` is fuel exhaustion, `some none` a pending exception (a child `<sitemap>`
without `<loc>`), `some (some l)` the accumulated URLs. -/
def parseC_index_step (recurse : String → Option (List String))
    (children : List IndexChild) : Option (Option (List String)) :=
  children.foldl
    (fun acc ch =>
      match acc, ch.bsLocText with
      | none, _ => none
      | some none, _ => some none
      | some (some _), none => some none
      | some (some l), some s =>
          match recurse s with
          | none => none
          | some l2 => some (some (l ++ l2)))
    (some (some []))

/-- `auto_lighthouse_2.py:parse_sitemap` (lines 61–73).  The whole body is in
one `try`; `except Exception` returns `[]`.  A missing `<loc>` anywhere at the
current level (`sitemap.find('loc').text` / `tag.find('loc').text`) raises and
is caught *at this level*, discarding the level's accumulation; recursive
children never raise (they catch everything themselves).  Its `is_html_page`
denylist is identical to the package one. -/
def parse_sitemapC (env : String → Fetched) : Nat → String → Option (List String)
  | 0, _ => none
  | fuel + 1, url =>
      match env url with
      | .fetchError => some []
      | .httpError => some []
      | .doc .malformedIndexXml => some []
      | .doc (.index children) =>
          match parseC_index_step (parse_sitemapC env fuel) children with
          | none => none
          | some none => some []
          | some (some l) => some l
      | .doc (.leaf locs) =>
          if locs.any Option.isNone then some []
          else some ((locs.filterMap id).filter is_html_page)

/-- Number of times the recursive expansion of
`lighthouse_bulk_scan/sitemap.py:parse_sitemap` enters the function with the
URL `target`, observed up to the given fuel (a fuel-0 entry is still an
entry; its children are beyond the observation window).  Recursion happens
exactly for children passing the `if loc and loc.text` guard
(`IndexChild.etLocText`). -/
def sitemapVisits (env : String → Fetched) : Nat → String → String → Nat
  | 0, url, target => if url = target then 1 else 0
  | fuel + 1, url, target =>
      (if url = target then 1 else 0) +
      match env url with
      | .doc (.index children) =>
          (children.filterMap IndexChild.etLocText).foldl
            (fun acc s => acc + sitemapVisits env fuel (pyStrip s) target) 0
      | _ => 0

/-- The root URL of the cyclic sitemap environments below. -/
def cyclicRoot : String := "http://ex.com/sitemap.xml"

/-- A sitemap index whose single `<sitemap><loc>` element contains the index's
own URL as its text *and has a child element* — e.g.
`<loc>http://ex.com/sitemap.xml<x/></loc>` — so the ElementTree element is
truthy and the `if loc and loc.text` guard passes: the concrete cyclic input
used against the cycle/termination claim. -/
def cyclicEnv : String → Fetched := fun _ => .doc (.index [.loc true (some cyclicRoot)])

/-- The same cycle through an *ordinary* childless text-only `<loc>`: the
ElementTree element is falsy, so `sitemap.py` skips the child. -/
def plainCyclicEnv : String → Fetched :=
  fun _ => .doc (.index [.loc false (some cyclicRoot)])

instance {ε α : Type} [DecidableEq ε] [DecidableEq α] : DecidableEq (Except ε α) :=
  fun a b =>
    match a, b with
    | .ok x, .ok y =>
        if h : x = y then .isTrue (by rw [h]) else .isFalse (by simp [h])
    | .error x, .error y =>
        if h : x = y then .isTrue (by rw [h]) else .isFalse (by simp [h])
    | .ok _, .error _ => .isFalse (by simp)
    | .error _, .ok _ => .isFalse (by simp)

/-! ### runner.py : subprocess invocation -/

/-- Outcome of the single `subprocess.run(..., check=True, timeout=timeout_secs)`
call: either the process completed with an exit code (non-zero raises
`CalledProcessError`) or `TimeoutExpired` was raised, carrying whatever
partial output was captured. -/
inductive ProcOutcome where
  | completed (exitCode : Nat) (stdout stderr : String)
  | timedOut (stdoutPartial stderrPartial : Option String)
deriving DecidableEq

/-- The `logging.error` events `run_lighthouse` emits on failure. -/
inductive LogEvent where
  | timeoutError (timeout_secs : Nat) (mode url : String)
      (stdoutPartial stderrPartial : Option String)
  | processError (url mode stdout stderr : String)
deriving DecidableEq

/-- The Lighthouse command line built by `run_lighthouse` (lines 76–100):
base flags, then mobile emulation or the desktop preset, then the caller's
extra flags (after the chrome-flags adjustment). -/
def buildCmd (lighthouse_exe url out mode : String) (flags : List String) :
    List String :=
  [lighthouse_exe, url, "--output=json", "--output-path=" ++ out,
   "--only-categories=performance,accessibility,best-practices,seo",
   "--save-assets", "--disable-storage-reset"]
  ++ (if mode = "mobile" then
        ["--emulated-form-factor=mobile", "--screenEmulation.width=375",
         "--screenEmulation.height=667", "--screenEmulation.deviceScaleFactor=2",
         "--screenEmulation.mobile"]
      else ["--preset=desktop"])
  ++ flags

/-- Everything observable about one `run_lighthouse` call: its return value,
the caller's `extra_flags` list after the call, the command it built, how many
times it invoked the subprocess, whether it ran the post-success
`time.sleep(2)`, and the error log lines it emitted. -/
structure RunResult where
  result : Option String
  flagsAfter : List String
  cmd : List String
  procCalls : Nat
  sleptAfterRun : Bool
  errorLogs : List LogEvent
deriving DecidableEq

/-- `runner.py:run_lighthouse` (lines 33–131) over an explicit subprocess
outcome: timeout ⇒ log partial output, return `None`; non-zero exit ⇒ log
captured output, return `None`; success ⇒ sleep 2 s, return the derived JSON
path.  The subprocess is invoked exactly once (no retry on any path). -/
def run_lighthouse (url mode output_dir lighthouse_exe : String)
    (extra_flags : List String) (timeout_secs : Nat) (outcome : ProcOutcome) :
    RunResult :=
  let flags := ensureChromeFlags extra_flags
  let out := out_file output_dir url mode
  let cmd := buildCmd lighthouse_exe url out mode flags
  match outcome with
  | .timedOut so se =>
      ⟨none, flags, cmd, 1, false, [.timeoutError timeout_secs mode url so se]⟩
  | .completed 0 _ _ => ⟨some out, flags, cmd, 1, true, []⟩
  | .completed (_ + 1) so se =>
      ⟨none, flags, cmd, 1, false, [.processError url mode so se]⟩

/-- `true` iff the subprocess outcome is a zero-exit completion. -/
def ProcOutcome.isSuccess : ProcOutcome → Bool
  | .completed 0 _ _ => true
  | _ => false

/-- The sequential scheduling loop of `cli.py:main` (step 4) restricted to its
per-target behaviour: each `(url, mode)` task calls `run_lighthouse` and, when
a path comes back, contributes a collected result; a failed task contributes
nothing and the loop continues with the next task. -/
def runBatchResults (tasks : List (String × String))
    (output_dir lighthouse_exe : String) (extra_flags : List String)
    (timeout_secs : Nat) (outcome : String → String → ProcOutcome) :
    List (String × String × String) :=
  tasks.filterMap fun t =>
    match (run_lighthouse t.1 t.2 output_dir lighthouse_exe extra_flags
        timeout_secs (outcome t.1 t.2)).result with
    | some p => some (t.1, t.2, p)
    | none => none

/-- Total number of subprocess invocations the scheduling loop performs. -/
def runBatchInvocations (tasks : List (String × String))
    (output_dir lighthouse_exe : String) (extra_flags : List String)
    (timeout_secs : Nat) (outcome : String → String → ProcOutcome) : Nat :=
  (tasks.map fun t =>
    (run_lighthouse t.1 t.2 output_dir lighthouse_exe extra_flags
      timeout_secs (outcome t.1 t.2)).procCalls).sum

/-! ### JSON values and the report extractors

A JSON value as `json.load` produces it (numbers as `ℚ`: all values involved
are decimal).  Objects and arrays are their own inductives so that equality
derives structurally. -/

mutual
inductive JVal where
  | null
  | bool (v : Bool)
  | num (q : ℚ)
  | str (v : String)
  | arr (items : JArr)
  | obj (fields : JObj)
deriving DecidableEq

inductive JArr where
  | nil
  | cons (hd : JVal) (tl : JArr)
deriving DecidableEq

inductive JObj where
  | nil
  | cons (k : String) (v : JVal) (tl : JObj)
deriving DecidableEq
end

/-- First binding of a key in an object (keys of a Python dict are unique). -/
def JObj.lookup (k : String) : JObj → Option JVal
  | .nil => none
  | .cons k2 v tl => if k2 = k then some v else JObj.lookup k tl

/-- The fields of an object as an association list. -/
def JObj.toList : JObj → List (String × JVal)
  | .nil => []
  | .cons k v tl => (k, v) :: JObj.toList tl

/-- The elements of a JSON array as a list. -/
def JArr.toList : JArr → List JVal
  | .nil => []
  | .cons hd tl => hd :: JArr.toList tl

/-- Python `receiver.get(key, default)`: returns the value or the default on a
dict, raises `AttributeError` when the receiver is not a dict. -/
def pyGet (v : JVal) (key : String) (dflt : JVal) : Except PyErr JVal :=
  match v with
  | .obj o => .ok ((o.lookup key).getD dflt)
  | _ => .error .attributeError

/-- Python `receiver[key]`: raises `KeyError` for a missing key on a dict and
`TypeError`-like failure (modelled as `attributeError`) on a non-dict. -/
def pyIndex (v : JVal) (key : String) : Except PyErr JVal :=
  match v with
  | .obj o =>
      match o.lookup key with
      | some w => .ok w
      | none => .error .keyError
  | _ => .error .attributeError

/-- What `open(report_path)` + `json.load` yields for one artifact path:
a missing or unreadable file (`OSError`), invalid JSON
(`json.JSONDecodeError`), or a parsed document. -/
inductive FileRead where
  | missing
  | unreadable
  | invalidJson
  | json (data : JVal)
deriving DecidableEq

/-- The `try`-body of `report_parser.py:extract_detailed_data` (lines 10–33)
with the raising accesses explicit: every access is a defaulted `.get` chain,
so the only possible exception is an `AttributeError` from calling `.get` on a
non-dict intermediate value.  The record is the returned dict as an
association list in literal order. -/
def extract_detailed_data_core (data : JVal) (mode : String) :
    Except PyErr (List (String × JVal)) := do
  let categories ← pyGet data "categories" (.obj .nil)
  let audits ← pyGet data "audits" (.obj .nil)
  let url ← pyGet data "finalDisplayedUrl" (.str "")
  let requested ← pyGet data "requestedUrl" (.str "")
  let version ← pyGet data "lighthouseVersion" (.str "")
  let fetchTime ← pyGet data "fetchTime" (.str "")
  let perfCat ← pyGet categories "performance" (.obj .nil)
  let perf ← pyGet perfCat "score" .null
  let accCat ← pyGet categories "accessibility" (.obj .nil)
  let acc ← pyGet accCat "score" .null
  let bpCat ← pyGet categories "best-practices" (.obj .nil)
  let bp ← pyGet bpCat "score" .null
  let seoCat ← pyGet categories "seo" (.obj .nil)
  let seo ← pyGet seoCat "score" .null
  let fcpA ← pyGet audits "first-contentful-paint" (.obj .nil)
  let fcp ← pyGet fcpA "displayValue" (.str "")
  let lcpA ← pyGet audits "largest-contentful-paint" (.obj .nil)
  let lcp ← pyGet lcpA "displayValue" (.str "")
  let intA ← pyGet audits "interactive" (.obj .nil)
  let tti ← pyGet intA "displayValue" (.str "")
  let siA ← pyGet audits "speed-index" (.obj .nil)
  let si ← pyGet siA "displayValue" (.str "")
  let tbtA ← pyGet audits "total-blocking-time" (.obj .nil)
  let tbt ← pyGet tbtA "displayValue" (.str "")
  let clsA ← pyGet audits "cumulative-layout-shift" (.obj .nil)
  let cls ← pyGet clsA "displayValue" (.str "")
  let timing ← pyGet data "timing" (.obj .nil)
  let total ← pyGet timing "total" (.num 0)
  .ok [("mode", .str mode), ("url", url), ("requested_url", requested),
       ("lighthouse_version", version), ("fetch_time", fetchTime),
       ("performance_score", perf), ("accessibility_score", acc),
       ("best_practices_score", bp), ("seo_score", seo),
       ("first_contentful_paint", fcp), ("largest_contentful_paint", lcp),
       ("interactive", tti), ("speed_index", si),
       ("total_blocking_time", tbt), ("cumulative_layout_shift", cls),
       ("timing_total", total)]

/-- `report_parser.py:extract_detailed_data`: the body above wrapped in
`except Exception: return {}`, with the file read and JSON parse inside the
`try` as well. -/
def extract_detailed_data (fr : FileRead) (mode : String) :
    List (String × JVal) :=
  match fr with
  | .missing => []
  | .unreadable => []
  | .invalidJson => []
  | .json data =>
      match extract_detailed_data_core data mode with
      | .error _ => []
      | .ok r => r

/-! ### auto_lighthouse_pypeteer.py : the raising report extractor -/

/-- The audit-details flattening shared by `auto_lighthouse_pypeteer.py` and
`auto_lighthouse_2.py`: for each audit object, every sub-field whose key
contains neither `description` nor `_id`, re-keyed `{audit_id}_{detail_key}`;
`audit.items()` raises `AttributeError` at the first audit value that is not a
dict. -/
def flattenAuditEntries : List (String × JVal) →
    Except PyErr (List (String × JVal))
  | [] => .ok []
  | (aid, audit) :: rest =>
      match audit with
      | .obj af => do
          let tail ← flattenAuditEntries rest
          .ok ((af.toList.filter fun kv =>
                  !(strContains kv.1 "description") && !(strContains kv.1 "_id")).map
                (fun kv => (aid ++ "_" ++ kv.1, kv.2)) ++ tail)
      | _ => .error .attributeError

/-- `audit_details` dict comprehension over `audits.items()`. -/
def flattenAudits (audits : JVal) : Except PyErr (List (String × JVal)) :=
  match audits with
  | .obj o => flattenAuditEntries o.toList
  | _ => .error .attributeError

/-- Stable insertion into a duration-descending list (the model of Python's
stable `sorted(..., key=lambda x: x[1], reverse=True)`). -/
def insertByDurationDesc (p : JVal × ℚ) :
    List (JVal × ℚ) → List (JVal × ℚ)
  | [] => [p]
  | q :: rest =>
      if q.2 < p.2 then p :: q :: rest else q :: insertByDurationDesc p rest

/-- Duration-descending stable sort. -/
def sortByDurationDesc : List (JVal × ℚ) → List (JVal × ℚ)
  | [] => []
  | p :: rest => insertByDurationDesc p (sortByDurationDesc rest)

/-- The `script_timings` comprehension: keep items whose `resourceType` equals
`"Script"`, pairing `item['url']` (a missing key raises `KeyError`, a non-dict
item raises on `.get`) with `item.get('duration', 0)`. -/
def collectScriptTimings : List JVal → Except PyErr (List (JVal × JVal))
  | [] => .ok []
  | item :: rest =>
      match item with
      | .obj o =>
          if o.lookup "resourceType" = some (.str "Script") then
            match o.lookup "url" with
            | none => .error .keyError
            | some u => do
                let tail ← collectScriptTimings rest
                .ok ((u, (o.lookup "duration").getD (.num 0)) :: tail)
          else collectScriptTimings rest
      | _ => .error .attributeError

/-- `auto_lighthouse_pypeteer.py:get_top_slowest_scripts` (lines 136–146):
fetch the `network-requests → details → items` chain with defaulted `.get`,
collect script timings, sort by duration descending, take 20 URLs.  Sorting
compares durations, so a non-numeric duration raises (`TypeError`) whenever
the list needs any comparison; `except Exception` logs and *re-raises*. -/
def get_top_slowest_scriptsP (audits : JVal) : Except PyErr (List JVal) := do
  let nr ← pyGet audits "network-requests" (.obj .nil)
  let det ← pyGet nr "details" (.obj .nil)
  let items ← pyGet det "items" (.arr .nil)
  let l ← match items with
    | .arr a => .ok a.toList
    | _ => .error .attributeError
  let timings ← collectScriptTimings l
  if timings.length ≤ 1 then
    .ok ((timings.map Prod.fst).take 20)
  else if timings.all (fun p => match p.2 with | .num _ => true | _ => false) then
    .ok (((sortByDurationDesc (timings.map fun p =>
        (p.1, match p.2 with | .num q => q | _ => 0))).map Prod.fst).take 20)
  else .error .attributeError

/-- `"; ".join(l)`: raises unless every element is a string. -/
def joinSemicolon (l : List JVal) : Except PyErr String :=
  if l.all (fun v => match v with | .str _ => true | _ => false) then
    .ok (String.intercalate "; " (l.map fun v => match v with
      | .str s => s
      | _ => ""))
  else .error .attributeError

/-- `auto_lighthouse_pypeteer.py:extract_detailed_data` (lines 106–134): the
accesses are direct subscripts (`data['categories']`,
`categories['performance']['score']`, …), so a missing key raises `KeyError`;
the trailing `except Exception` logs and *re-raises*, and the file read and
JSON parse also sit inside the `try` whose handler re-raises.  The
`**audit_details` entries follow the literal entries. -/
def extract_detailed_dataP (fr : FileRead) (mode : String) :
    Except PyErr (List (String × JVal)) :=
  match fr with
  | .missing => .error .ioError
  | .unreadable => .error .ioError
  | .invalidJson => .error .jsonDecodeError
  | .json data => do
      let categories ← pyIndex data "categories"
      let audits ← pyIndex data "audits"
      let details ← flattenAudits audits
      let url ← pyIndex data "finalDisplayedUrl"
      let lhv ← pyIndex data "lighthouseVersion"
      let ft ← pyIndex data "fetchTime"
      let ua ← pyIndex data "userAgent"
      let ru ← pyIndex data "requestedUrl"
      let mdu ← pyGet data "mainDocumentUrl" (.str "")
      let fdu ← pyIndex data "finalDisplayedUrl"
      let perfC ← pyIndex categories "performance"
      let perf ← pyIndex perfC "score"
      let accC ← pyIndex categories "accessibility"
      let acc ← pyIndex accC "score"
      let bpC ← pyIndex categories "best-practices"
      let bp ← pyIndex bpC "score"
      let seoC ← pyIndex categories "seo"
      let seo ← pyIndex seoC "score"
      let fcpA ← pyIndex audits "first-contentful-paint"
      let fcp ← pyIndex fcpA "displayValue"
      let siA ← pyIndex audits "speed-index"
      let si ← pyIndex siA "displayValue"
      let lcpA ← pyIndex audits "largest-contentful-paint"
      let lcp ← pyIndex lcpA "displayValue"
      let intA ← pyIndex audits "interactive"
      let tti ← pyIndex intA "displayValue"
      let tbtA ← pyIndex audits "total-blocking-time"
      let tbt ← pyIndex tbtA "displayValue"
      let clsA ← pyIndex audits "cumulative-layout-shift"
      let cls ← pyIndex clsA "displayValue"
      let scriptUrls ← get_top_slowest_scriptsP audits
      let scripts ← joinSemicolon scriptUrls
      let timing ← pyIndex data "timing"
      let total ← pyIndex timing "total"
      .ok ([("url", url), ("mode", .str mode), ("lighthouse_version", lhv),
            ("fetch_time", ft), ("user_agent", ua), ("requested_url", ru),
            ("main_document_url", mdu), ("final_displayed_url", fdu),
            ("performance_score", perf), ("accessibility_score", acc),
            ("best_practices_score", bp), ("seo_score", seo),
            ("first_contentful_paint", fcp), ("speed_index", si),
            ("largest_contentful_paint", lcp), ("interactive", tti),
            ("total_blocking_time", tbt), ("cumulative_layout_shift", cls),
            ("top_20_slowest_scripts", .str scripts),
            ("network_requests", .str ""), ("timing_total", total)] ++ details)

/-! ### cli.py : URL gathering (step 2) -/

/-- Single-URL mode: `urls_to_process = [args.url_target.strip()]`. -/
def gather_single_url (url_target : String) : List String := [pyStrip url_target]

/-- CSV mode (`cli.py` lines 131–144 and `main.py` lines 84–97):
`if row and row[0].strip(): urls_to_process.append(row[0].strip())`, then
`urls_to_process[:max_urls]`.  No deduplication happens on this path. -/
def gather_csv_urls (rows : List (List String)) (max_urls : Nat) : List String :=
  (rows.filterMap fun row =>
    match row with
    | [] => none
    | c :: _ => if (pyStrip c).isEmpty then none else some (pyStrip c)).take max_urls

/-- Sitemap mode (`cli.py` lines 160–163): `all_urls = set()`, updated with
each sitemap's URL list, then `list(all_urls)[:max_urls]`.  The set is
modelled by deduplicating the concatenation (a deterministic representative;
CPython's set iteration order is unspecified). -/
def gather_sitemap_urls (sitemap_results : List (List String)) (max_urls : Nat) :
    List String :=
  ((sitemap_results.foldl (fun acc l => acc ++ l) []).dedup).take max_urls

/-! ### cli.py : aggregated summary table (step 5)

A dataframe row after the numeric-normalization pass is a mapping from column
to cell: the designated numeric columns hold a rational or `NaN`, the others
hold strings; `unavailable` is the `'---'` sentinel the average rows use. -/

/-- The columns of the result dataframe, in record insertion order. -/
inductive Col where
  | mode
  | url
  | requested_url
  | lighthouse_version
  | fetch_time
  | performance_score
  | accessibility_score
  | best_practices_score
  | seo_score
  | first_contentful_paint
  | largest_contentful_paint
  | interactive
  | speed_index
  | total_blocking_time
  | cumulative_layout_shift
  | timing_total
  | run_iteration
deriving DecidableEq, Fintype

/-- A dataframe cell: a number, `NaN`, a string, or the `'---'` sentinel. -/
inductive Cell where
  | q (x : ℚ)
  | nan
  | s (v : String)
  | unavailable
deriving DecidableEq

/-- One dataframe row. -/
def Row : Type := Col → Cell

instance : DecidableEq Row :=
  inferInstanceAs (DecidableEq (Col → Cell))

/-- The `numeric_cols` list of `cli.py:main` (lines 263–275), verbatim order. -/
def numeric_cols : List Col :=
  [.performance_score, .accessibility_score, .best_practices_score, .seo_score,
   .timing_total, .first_contentful_paint, .largest_contentful_paint,
   .interactive, .speed_index, .total_blocking_time, .cumulative_layout_shift]

/-- Numeric content of a cell (`NaN`, strings and the sentinel have none). -/
def Cell.numVal : Cell → Option ℚ
  | .q x => some x
  | _ => none

/-- The non-null values of one column over a set of rows (pandas `mean`
skips `NaN`). -/
def colVals (rows : List Row) (c : Col) : List ℚ :=
  rows.filterMap fun r => (r c).numVal

/-- `desktop_df[numeric_cols].mean(numeric_only=True)[col]`: the mean of the
non-null values, `NaN` when the column has none. -/
def colMean (rows : List Row) (c : Col) : Cell :=
  let vs := colVals rows c
  if vs.isEmpty then .nan else .q (vs.sum / vs.length)

/-- One average row (`cli.py` lines 296–311): the `mode` column carries the
label; when the mode has no rows its mean series is empty, so every other
column gets `'---'`; otherwise the designated numeric columns get the group
mean and every remaining column gets `'---'`. -/
def avgRow (label : String) (rows : List Row) : Row := fun c =>
  if c = Col.mode then .s label
  else if rows.isEmpty then .unavailable
  else if numeric_cols.contains c then colMean rows c
  else .unavailable

/-- The rows of one device mode: `df[df['mode'] == m]`. -/
def modeRows (records : List Row) (m : String) : List Row :=
  records.filter fun r => r Col.mode = Cell.s m

/-- `cli.py` lines 288–314: the final table is the two average rows
(desktop first) prepended to all per-run rows. -/
def summaryTable (records : List Row) : List Row :=
  [avgRow "desktop-AVERAGE" (modeRows records "desktop"),
   avgRow "mobile-AVERAGE" (modeRows records "mobile")] ++ records

end LighthouseBulkScan

namespace LighthouseBulkScan

lemma parse_display_value_eq (s : String) :
    parse_display_value (some s) = pyFloatOfDigitsDots (stripNonNumeric s) := by
  by_cases h : s.isEmpty
  · have hs : s = "" := (String.isEmpty_iff s).mp h
    subst hs
    rfl
  · simp [parse_display_value, h]

/-- **C5.** `parse_display_value` keeps exactly the digits and the decimal
point of its input (its result depends only on those characters), parses the
remainder as a float, maps `"1.2 s"` to `1.2` and `"240 ms"` to `240.0`, and
returns `None` for an absent, empty or unparseable input. -/
theorem parse_display_value_spec :
    (∀ s t : String, s.data.filter keepNumericChar = t.data.filter keepNumericChar →
        parse_display_value (some s) = parse_display_value (some t)) ∧
    (∀ s : String, parse_display_value (some s) = pyFloatOfDigitsDots (stripNonNumeric s)) ∧
    parse_display_value (some "1.2 s") = some (6 / 5 : ℚ) ∧
    parse_display_value (some "240 ms") = some 240 ∧
    parse_display_value none = none ∧
    parse_display_value (some "") = none ∧
    parse_display_value (some "no digits") = none ∧
    parse_display_value (some "1.2.3 s") = none := by
  refine ⟨?_, parse_display_value_eq, ?_, ?_, rfl, rfl, by decide, by decide⟩
  · intro s t h
    rw [parse_display_value_eq, parse_display_value_eq]
    unfold stripNonNumeric
    rw [h]
  · simp +decide [parse_display_value, pyFloatOfDigitsDots, stripNonNumeric, keepNumericChar,
      splitOnDot, digitsToNat]
    norm_num
  · simp +decide [parse_display_value, pyFloatOfDigitsDots, stripNonNumeric, keepNumericChar,
      splitOnDot, digitsToNat]

theorem parse_display_value_spec_witness :
    parse_display_value (some "x1.2y") = parse_display_value (some "1.2 s") :=
  parse_display_value_spec.1 "x1.2y" "1.2 s" (by decide)

/-- **C6.** `is_html_page` returns `false` exactly when the lowercased URL
ends with one of the 30 denylisted asset suffixes, and `true` otherwise —
including for extensionless URLs and URLs ending in `/`. -/
theorem is_html_page_spec :
    (∀ url : String, is_html_page url = false ↔
        ∃ ext ∈ NON_HTML_EXTENSIONS, strEndsWith (strLower url) ext = true) ∧
    is_html_page "https://example.com/index.html" = true ∧
    is_html_page "https://example.com/image.png" = false ∧
    is_html_page "https://example.com/IMG.PNG" = false ∧
    is_html_page "https://example.com/about/" = true ∧
    is_html_page "https://example.com/page" = true := by
  refine ⟨?_, by decide, by decide, by decide, by decide, by decide⟩
  intro url
  simp [is_html_page, List.any_eq_true]

theorem is_html_page_spec_witness :
    is_html_page "a.PdF" = false ↔
      ∃ ext ∈ NON_HTML_EXTENSIONS, strEndsWith (strLower "a.PdF") ext = true :=
  is_html_page_spec.1 "a.PdF"

/-- **C9.** `run_lighthouse` appends the default `--chrome-flags` entry to the
caller's `extra_flags` list exactly when no element contains the substring
`--chrome-flags`, leaves the list unchanged otherwise, and the mutation is
idempotent across later invocations sharing the list (the appended entry
itself contains the substring). -/
theorem ensureChromeFlags_spec :
    (∀ flags : List String,
      ((flags.any fun f => strContains f "--chrome-flags") = false →
        ensureChromeFlags flags = flags ++ [defaultChromeFlagsEntry]) ∧
      ((flags.any fun f => strContains f "--chrome-flags") = true →
        ensureChromeFlags flags = flags) ∧
      ensureChromeFlags (ensureChromeFlags flags) = ensureChromeFlags flags) ∧
    strContains defaultChromeFlagsEntry "--chrome-flags" = true ∧
    (∀ url mode output_dir exe flags tmo outcome,
      (run_lighthouse url mode output_dir exe flags tmo outcome).flagsAfter =
        ensureChromeFlags flags) := by
  have hentry : strContains defaultChromeFlagsEntry "--chrome-flags" = true := by decide
  refine ⟨?_, hentry, ?_⟩
  · intro flags
    refine ⟨fun h => by simp [ensureChromeFlags, h], fun h => by simp [ensureChromeFlags, h], ?_⟩
    by_cases h : (flags.any fun f => strContains f "--chrome-flags") = true
    · simp [ensureChromeFlags, h]
    · have h2 : ((flags ++ [defaultChromeFlagsEntry]).any
          fun f => strContains f "--chrome-flags") = true := by
        simp [List.any_append, hentry]
      simp only [Bool.not_eq_true] at h
      simp [ensureChromeFlags, h, h2]
  · intro url mode output_dir exe flags tmo outcome
    cases outcome with
    | completed c so se => cases c <;> rfl
    | timedOut so se => rfl

theorem ensureChromeFlags_spec_witness :
    ensureChromeFlags [] = [] ++ [defaultChromeFlagsEntry] ∧
    ensureChromeFlags ["--chrome-flags=x"] = ["--chrome-flags=x"] :=
  ⟨(ensureChromeFlags_spec.1 []).1 (by decide),
   (ensureChromeFlags_spec.1 ["--chrome-flags=x"]).2.1 (by decide)⟩

/-- **C10.** The sanitized output-path derivation is not injective: distinct
URLs differing only in scheme, or only in `/` vs `_`, derive the same output
JSON path for every output directory and mode. -/
theorem safe_url_not_injective :
    safe_url "http://example.com/a" = safe_url "https://example.com/a" ∧
    ("http://example.com/a" : String) ≠ "https://example.com/a" ∧
    safe_url "https://example.com/a/b" = safe_url "https://example.com/a_b" ∧
    ("https://example.com/a/b" : String) ≠ "https://example.com/a_b" ∧
    (∀ output_dir mode : String,
      out_file output_dir "http://example.com/a" mode =
        out_file output_dir "https://example.com/a" mode) := by
  have h : safe_url "http://example.com/a" = safe_url "https://example.com/a" := by decide
  refine ⟨h, by decide, by decide, by decide, ?_⟩
  intro output_dir mode
  simp [out_file, h]

end LighthouseBulkScan

namespace LighthouseBulkScan

lemma run_lighthouse_procCalls (url mode output_dir exe : String)
    (flags : List String) (tmo : Nat) (outcome : ProcOutcome) :
    (run_lighthouse url mode output_dir exe flags tmo outcome).procCalls = 1 := by
  cases outcome with
  | completed c so se => cases c <;> rfl
  | timedOut so se => rfl

/-- **C1.** `run_lighthouse`: a timeout returns `None` (no retry) and logs the
partial stdout/stderr; a non-zero exit returns `None` and logs the captured
output; a zero exit sleeps after the run and returns the derived output JSON
path.  The subprocess is invoked exactly once per call, the scheduling loop
invokes it exactly once per target whatever the outcomes, and every
successful target's result is collected regardless of other targets'
failures. -/
theorem run_lighthouse_failure_handling :
    (∀ url mode output_dir exe flags tmo so se,
      (run_lighthouse url mode output_dir exe flags tmo (.timedOut so se)).result = none ∧
      (run_lighthouse url mode output_dir exe flags tmo (.timedOut so se)).procCalls = 1 ∧
      (run_lighthouse url mode output_dir exe flags tmo (.timedOut so se)).sleptAfterRun = false ∧
      (run_lighthouse url mode output_dir exe flags tmo (.timedOut so se)).errorLogs =
        [.timeoutError tmo mode url so se]) ∧
    (∀ url mode output_dir exe flags tmo c sout serr, c ≠ 0 →
      (run_lighthouse url mode output_dir exe flags tmo (.completed c sout serr)).result = none ∧
      (run_lighthouse url mode output_dir exe flags tmo (.completed c sout serr)).procCalls = 1 ∧
      (run_lighthouse url mode output_dir exe flags tmo (.completed c sout serr)).errorLogs =
        [.processError url mode sout serr]) ∧
    (∀ url mode output_dir exe flags tmo sout serr,
      (run_lighthouse url mode output_dir exe flags tmo (.completed 0 sout serr)).result =
        some (out_file output_dir url mode) ∧
      (run_lighthouse url mode output_dir exe flags tmo (.completed 0 sout serr)).sleptAfterRun =
        true ∧
      (run_lighthouse url mode output_dir exe flags tmo (.completed 0 sout serr)).procCalls = 1) ∧
    (∀ tasks output_dir exe flags tmo outcome,
      runBatchInvocations tasks output_dir exe flags tmo outcome = tasks.length) ∧
    (∀ tasks output_dir exe flags tmo outcome, ∀ t ∈ tasks,
      (outcome t.1 t.2).isSuccess = true →
      (t.1, t.2, out_file output_dir t.1 t.2) ∈
        runBatchResults tasks output_dir exe flags tmo outcome) := by
  refine ⟨fun url mode output_dir exe flags tmo so se => ⟨rfl, rfl, rfl, rfl⟩,
    ?_, fun url mode output_dir exe flags tmo sout serr => ⟨rfl, rfl, rfl⟩, ?_, ?_⟩
  · intro url mode output_dir exe flags tmo c sout serr hc
    match c, hc with
    | c + 1, _ => exact ⟨rfl, rfl, rfl⟩
  · intro tasks output_dir exe flags tmo outcome
    unfold runBatchInvocations
    rw [List.map_congr_left
      (fun t _ => run_lighthouse_procCalls t.1 t.2 output_dir exe flags tmo (outcome t.1 t.2))]
    simp
  · intro tasks output_dir exe flags tmo outcome t ht hsucc
    have hres : (run_lighthouse t.1 t.2 output_dir exe flags tmo (outcome t.1 t.2)).result =
        some (out_file output_dir t.1 t.2) := by
      cases houtc : outcome t.1 t.2 with
      | completed c so se =>
          cases c with
          | zero => rfl
          | succ c => rw [houtc] at hsucc; simp [ProcOutcome.isSuccess] at hsucc
      | timedOut so se => rw [houtc] at hsucc; simp [ProcOutcome.isSuccess] at hsucc
    refine List.mem_filterMap.mpr ⟨t, ht, ?_⟩
    rw [hres]

theorem run_lighthouse_failure_handling_witness :
    (run_lighthouse "http://a.com" "desktop" "out" "lighthouse" [] 120
        (.completed 2 "o" "e")).result = none ∧
    ("http://a.com", "desktop", out_file "out" "http://a.com" "desktop") ∈
      runBatchResults [("http://a.com", "desktop"), ("http://b.com", "desktop")]
        "out" "lighthouse" [] 120
        (fun u _ => if u = "http://b.com" then .timedOut none none else .completed 0 "" "") :=
  ⟨(run_lighthouse_failure_handling.2.1 "http://a.com" "desktop" "out" "lighthouse" [] 120 2
      "o" "e" (by decide)).1,
   run_lighthouse_failure_handling.2.2.2.2
     [("http://a.com", "desktop"), ("http://b.com", "desktop")] "out" "lighthouse" [] 120
     (fun u _ => if u = "http://b.com" then .timedOut none none else .completed 0 "" "")
     ("http://a.com", "desktop") (by decide) (by decide)⟩

end LighthouseBulkScan

namespace LighthouseBulkScan

lemma pyStrip_cyclicRoot : pyStrip cyclicRoot = cyclicRoot := by decide

lemma etIndexStep_skip (recurse : String → Option (List String))
    (acc : Option (List String)) (ch : IndexChild) (h : ch.etLocText = none) :
    etIndexStep recurse acc ch = acc := by
  unfold etIndexStep
  rw [h]
  cases acc <;> rfl

lemma foldl_etIndexStep_skip (recurse : String → Option (List String)) :
    ∀ (children : List IndexChild) (init : Option (List String)),
      (∀ ch ∈ children, ch.etLocText = none) →
      children.foldl (etIndexStep recurse) init = init
  | [], _, _ => rfl
  | ch :: rest, init, h => by
      rw [List.foldl_cons, etIndexStep_skip recurse init ch (h ch (List.mem_cons_self _ _))]
      exact foldl_etIndexStep_skip recurse rest init
        (fun c hc => h c (List.mem_cons_of_mem _ hc))

/-- **C2 (amended).** `sitemap.py:parse_sitemap` never propagates: every
failure (fetch failure, HTTP error, malformed index XML) is caught and yields
the empty list.  Its index branch skips every child whose ElementTree `<loc>`
element is childless (such elements are falsy, so `if loc and loc.text` fails)
— an index of ordinary text-only children therefore resolves to `[]` with no
recursion at all; for children whose `<loc>` does pass the guard (element with
child elements and truthy text), a failing child contributes the empty list
for that branch only and the siblings' results survive.
`auto_lighthouse_2.py` recurses on every child (BeautifulSoup, no truthiness
guard), also catches everything, and likewise isolates a failing child.
`auto_lighthouse.py`, however, catches only `HTTPError` — every other failure
re-raises (see the counterexample). -/
theorem parse_sitemap_error_isolation :
    (∀ env fuel url,
      (env url = .fetchError ∨ env url = .httpError ∨ env url = .doc .malformedIndexXml) →
      parse_sitemap env (fuel + 1) url = some []) ∧
    (∀ t, (IndexChild.loc false t).etLocText = none) ∧
    (∀ env fuel url children, env url = .doc (.index children) →
      (∀ ch ∈ children, ch.etLocText = none) →
      parse_sitemap env (fuel + 1) url = some []) ∧
    (∀ env fuel url a bad c la lc,
      env url = .doc (.index [.loc true (some a), .loc true (some bad), .loc true (some c)]) →
      a.isEmpty = false → bad.isEmpty = false → c.isEmpty = false →
      (env (pyStrip bad) = .fetchError ∨ env (pyStrip bad) = .httpError ∨
        env (pyStrip bad) = .doc .malformedIndexXml) →
      parse_sitemap env (fuel + 1) (pyStrip a) = some la →
      parse_sitemap env (fuel + 1) (pyStrip c) = some lc →
      parse_sitemap env (fuel + 2) url = some (la ++ lc)) ∧
    (∀ env fuel url b1 b2 b3 a bad c la lc,
      env url = .doc (.index [.loc b1 (some a), .loc b2 (some bad), .loc b3 (some c)]) →
      (env bad = .fetchError ∨ env bad = .httpError ∨ env bad = .doc .malformedIndexXml) →
      parse_sitemapC env (fuel + 1) a = some la →
      parse_sitemapC env (fuel + 1) c = some lc →
      parse_sitemapC env (fuel + 2) url = some (la ++ lc)) ∧
    (∀ env fuel url,
      (env url = .fetchError ∨ env url = .httpError ∨ env url = .doc .malformedIndexXml) →
      parse_sitemapC env (fuel + 1) url = some []) ∧
    (∀ env fuel url, env url = .httpError →
      parse_sitemapB env (fuel + 1) url = some (.ok [])) ∧
    (∀ env fuel url, env url = .fetchError →
      parse_sitemapB env (fuel + 1) url = some (.error .requestError)) := by
  have hfail : ∀ (env : String → Fetched) fuel url,
      (env url = .fetchError ∨ env url = .httpError ∨ env url = .doc .malformedIndexXml) →
      parse_sitemap env (fuel + 1) url = some [] := by
    intro env fuel url h
    rcases h with h | h | h <;> simp [parse_sitemap, parse_sitemap_body, h]
  have hfailC : ∀ (env : String → Fetched) fuel url,
      (env url = .fetchError ∨ env url = .httpError ∨ env url = .doc .malformedIndexXml) →
      parse_sitemapC env (fuel + 1) url = some [] := by
    intro env fuel url h
    rcases h with h | h | h <;> simp [parse_sitemapC, h]
  refine ⟨hfail, fun t => rfl, ?_, ?_, ?_, hfailC, ?_, ?_⟩
  · intro env fuel url children hidx hskip
    have h1 : parse_sitemap env (fuel + 1) url =
        (match parse_sitemap_body env (parse_sitemap env fuel) url with
         | .error _ => some []
         | .ok r => r) := rfl
    rw [h1]
    simp only [parse_sitemap_body, hidx]
    rw [foldl_etIndexStep_skip (parse_sitemap env fuel) children (some []) hskip]
  · intro env fuel url a bad c la lc hidx hea heb hec hbad ha hc
    have hbad' : parse_sitemap env (fuel + 1) (pyStrip bad) = some [] :=
      hfail env fuel (pyStrip bad) hbad
    have h1 : parse_sitemap env (fuel + 2) url =
        (match parse_sitemap_body env (parse_sitemap env (fuel + 1)) url with
         | .error _ => some []
         | .ok r => r) := rfl
    rw [h1]
    simp only [parse_sitemap_body, hidx, List.foldl_cons, List.foldl_nil, etIndexStep,
      IndexChild.etLocText, hea, heb, hec]
    simp [ha, hbad', hc]
  · intro env fuel url b1 b2 b3 a bad c la lc hidx hbad ha hc
    have hbadC : parse_sitemapC env (fuel + 1) bad = some [] :=
      hfailC env fuel bad hbad
    have h1 : parse_sitemapC env (fuel + 2) url =
        (match env url with
         | .fetchError => some []
         | .httpError => some []
         | .doc .malformedIndexXml => some []
         | .doc (.index children) =>
             match parseC_index_step (parse_sitemapC env (fuel + 1)) children with
             | none => none
             | some none => some []
             | some (some l) => some l
         | .doc (.leaf locs) =>
             if locs.any Option.isNone then some []
             else some ((locs.filterMap id).filter is_html_page)) := rfl
    rw [h1, hidx]
    simp only [parseC_index_step, List.foldl_cons, List.foldl_nil, IndexChild.bsLocText,
      Option.getD_some, ha, hbadC, hc]
    simp
  · intro env fuel url h
    simp [parse_sitemapB, h]
  · intro env fuel url h
    simp [parse_sitemapB, h]

/-- A three-sitemap environment for the witness: the root index has one
failing child between two healthy leaves; each child `<loc>` carries its URL
as text and has a child element, so `sitemap.py`'s truthiness guard passes. -/
def isolationEnv : String → Fetched := fun u =>
  if u = "root" then
    .doc (.index [.loc true (some "left"), .loc true (some "bad"),
                  .loc true (some "right")])
  else if u = "left" then .doc (.leaf [some "http://ex.com/l"])
  else if u = "right" then .doc (.leaf [some "http://ex.com/r"])
  else .fetchError

theorem parse_sitemap_error_isolation_witness :
    parse_sitemap isolationEnv 2 "root" = some ["http://ex.com/l", "http://ex.com/r"] ∧
    parse_sitemapC isolationEnv 2 "root" = some ["http://ex.com/l", "http://ex.com/r"] :=
  ⟨parse_sitemap_error_isolation.2.2.2.1 isolationEnv 0 "root" "left" "bad" "right"
    ["http://ex.com/l"] ["http://ex.com/r"] (by decide) (by decide) (by decide) (by decide)
    (by decide) (by decide) (by decide),
   parse_sitemap_error_isolation.2.2.2.2.1 isolationEnv 0 "root" true true true
    "left" "bad" "right" ["http://ex.com/l"] ["http://ex.com/r"]
    (by decide) (by decide) (by decide) (by decide)⟩

/-- **C2 (counterexample).** `auto_lighthouse.py:parse_sitemap` propagates a
child's fetch failure to its caller: with a sitemap index whose first child
fails with a connection error, the whole resolution aborts with the re-raised
exception and the healthy sibling is never delivered, falsifying the claim
that `parse_sitemap` never propagates an exception. -/
theorem parse_sitemapB_propagates :
    parse_sitemapB
      (fun u => if u = "root" then
                  .doc (.index [.loc false (some "bad"), .loc false (some "good")])
                else if u = "good" then .doc (.leaf [some "http://ex.com/page.html"])
                else .fetchError)
      2 "root" = some (.error .requestError) ∧
    parse_sitemapB (fun _ => .fetchError) 1 "http://ex.com/sitemap.xml" =
      some (.error .requestError) := by
  exact ⟨rfl, rfl⟩

/-- **C3.** The recursive sitemap expansion has no cycle or depth guard.  An
index whose single child `<loc>` is an ordinary childless text-only element is
skipped by the `if loc and loc.text` guard (the ElementTree element is falsy):
that cyclic input terminates immediately with `[]` after one visit.  But a
`<loc>` element that carries the index's own URL as text *and has a child
element* is truthy, passes the guard, and is recursed on: on that cyclic input
the resolution never completes within any fuel bound and the node is
re-entered once per recursion level (`fuel + 1` visits), violating the
visited-once/termination invariant. -/
theorem parse_sitemap_cycle_divergence :
    (∀ fuel, parse_sitemap cyclicEnv fuel cyclicRoot = none) ∧
    (∀ fuel, sitemapVisits cyclicEnv fuel cyclicRoot cyclicRoot = fuel + 1) ∧
    (∀ fuel, parse_sitemap plainCyclicEnv (fuel + 1) cyclicRoot = some []) ∧
    (∀ fuel, sitemapVisits plainCyclicEnv fuel cyclicRoot cyclicRoot = 1) := by
  have henv : cyclicEnv cyclicRoot = .doc (.index [.loc true (some cyclicRoot)]) := rfl
  have henvP : plainCyclicEnv cyclicRoot =
      .doc (.index [.loc false (some cyclicRoot)]) := rfl
  have hloc : (IndexChild.loc true (some cyclicRoot)).etLocText = some cyclicRoot := by
    decide
  refine ⟨?_, ?_, ?_, ?_⟩
  · intro fuel
    induction fuel with
    | zero => rfl
    | succ n ih =>
        have h1 : parse_sitemap cyclicEnv (n + 1) cyclicRoot =
            (match parse_sitemap_body cyclicEnv (parse_sitemap cyclicEnv n) cyclicRoot with
             | .error _ => some []
             | .ok r => r) := rfl
        rw [h1]
        simp only [parse_sitemap_body, henv, List.foldl_cons, List.foldl_nil, etIndexStep,
          hloc, pyStrip_cyclicRoot, ih]
  · intro fuel
    induction fuel with
    | zero => simp [sitemapVisits]
    | succ n ih =>
        have h1 : sitemapVisits cyclicEnv (n + 1) cyclicRoot cyclicRoot =
            ((if cyclicRoot = cyclicRoot then 1 else 0) +
              (([IndexChild.loc true (some cyclicRoot)]).filterMap
                  IndexChild.etLocText).foldl
                (fun acc s => acc + sitemapVisits cyclicEnv n (pyStrip s) cyclicRoot)
                0) := rfl
        rw [h1]
        simp [List.filterMap_cons, hloc, pyStrip_cyclicRoot, ih]
        omega
  · intro fuel
    have h1 : parse_sitemap plainCyclicEnv (fuel + 1) cyclicRoot =
        (match parse_sitemap_body plainCyclicEnv (parse_sitemap plainCyclicEnv fuel)
            cyclicRoot with
         | .error _ => some []
         | .ok r => r) := rfl
    rw [h1]
    simp only [parse_sitemap_body, henvP]
    rw [foldl_etIndexStep_skip (parse_sitemap plainCyclicEnv fuel)
      [IndexChild.loc false (some cyclicRoot)] (some []) (by decide)]
  · intro fuel
    cases fuel with
    | zero => simp [sitemapVisits]
    | succ n =>
        have h1 : sitemapVisits plainCyclicEnv (n + 1) cyclicRoot cyclicRoot =
            ((if cyclicRoot = cyclicRoot then 1 else 0) +
              (([IndexChild.loc false (some cyclicRoot)]).filterMap
                  IndexChild.etLocText).foldl
                (fun acc s => acc + sitemapVisits plainCyclicEnv n (pyStrip s) cyclicRoot)
                0) := rfl
        rw [h1]
        simp [List.filterMap_cons, IndexChild.etLocText]
end LighthouseBulkScan

namespace LighthouseBulkScan

lemma except_bind_ok {ε α β : Type} (a : α) (f : α → Except ε β) :
    (Bind.bind (Except.ok a) f : Except ε β) = f a := rfl

/-- **C4 (amended).** `report_parser.py:extract_detailed_data` never raises:
a file that is missing, unreadable or not valid JSON yields the empty record;
every exception the body could raise is caught and yields the empty record;
and absent category/audit/timing keys yield the null/empty defaults in the
corresponding record fields.  (The `auto_lighthouse_pypeteer.py` variant
instead re-raises — see the counterexample.) -/
theorem extract_detailed_data_defensive :
    (∀ mode, extract_detailed_data .missing mode = [] ∧
      extract_detailed_data .unreadable mode = [] ∧
      extract_detailed_data .invalidJson mode = []) ∧
    (∀ dat mode, (∃ e, extract_detailed_data_core dat mode = .error e ∧
        extract_detailed_data (.json dat) mode = []) ∨
      (∃ r, extract_detailed_data_core dat mode = .ok r ∧
        extract_detailed_data (.json dat) mode = r)) ∧
    (∀ dat cat aud mode,
      JObj.lookup "categories" dat = some (.obj cat) →
      JObj.lookup "audits" dat = some (.obj aud) →
      JObj.lookup "timing" dat = none →
      JObj.lookup "performance" cat = none →
      JObj.lookup "accessibility" cat = none →
      JObj.lookup "best-practices" cat = none →
      JObj.lookup "seo" cat = none →
      JObj.lookup "first-contentful-paint" aud = none →
      JObj.lookup "largest-contentful-paint" aud = none →
      JObj.lookup "interactive" aud = none →
      JObj.lookup "speed-index" aud = none →
      JObj.lookup "total-blocking-time" aud = none →
      JObj.lookup "cumulative-layout-shift" aud = none →
      ((extract_detailed_data (.json (.obj dat)) mode).lookup "performance_score" =
          some JVal.null ∧
       (extract_detailed_data (.json (.obj dat)) mode).lookup "first_contentful_paint" =
          some (JVal.str "") ∧
       (extract_detailed_data (.json (.obj dat)) mode).lookup "timing_total" =
          some (JVal.num 0) ∧
       (extract_detailed_data (.json (.obj dat)) mode).lookup "mode" =
          some (JVal.str mode))) := by
  refine ⟨fun mode => ⟨rfl, rfl, rfl⟩, ?_, ?_⟩
  · intro dat mode
    cases h : extract_detailed_data_core dat mode with
    | error e => exact .inl ⟨e, rfl, by simp [extract_detailed_data, h]⟩
    | ok r => exact .inr ⟨r, rfl, by simp [extract_detailed_data, h]⟩
  · intro dat cat aud mode hcat haud htim hp ha hb hs f1 f2 f3 f4 f5 f6
    have hcore : extract_detailed_data_core (.obj dat) mode =
        .ok [("mode", .str mode),
             ("url", ((JObj.lookup "finalDisplayedUrl" dat).getD (.str ""))),
             ("requested_url", ((JObj.lookup "requestedUrl" dat).getD (.str ""))),
             ("lighthouse_version", ((JObj.lookup "lighthouseVersion" dat).getD (.str ""))),
             ("fetch_time", ((JObj.lookup "fetchTime" dat).getD (.str ""))),
             ("performance_score", JVal.null), ("accessibility_score", JVal.null),
             ("best_practices_score", JVal.null), ("seo_score", JVal.null),
             ("first_contentful_paint", .str ""), ("largest_contentful_paint", .str ""),
             ("interactive", .str ""), ("speed_index", .str ""),
             ("total_blocking_time", .str ""), ("cumulative_layout_shift", .str ""),
             ("timing_total", .num 0)] := by
      simp [extract_detailed_data_core, pyGet, except_bind_ok, hcat, haud, htim,
        hp, ha, hb, hs, f1, f2, f3, f4, f5, f6, JObj.lookup]
    simp +decide [extract_detailed_data, hcore, List.lookup]

/-- **C4 (counterexample).** The `auto_lighthouse_pypeteer.py` extractor
raises to its caller: a JSON artifact lacking the `categories` key makes
`data['categories']` raise `KeyError`, which the handler re-raises; a missing
or unreadable artifact likewise propagates the I/O error instead of yielding
an empty record. -/
theorem extract_detailed_dataP_raises :
    extract_detailed_dataP (.json (.obj .nil)) "desktop" = .error .keyError ∧
    extract_detailed_dataP .missing "desktop" = .error .ioError ∧
    extract_detailed_dataP .invalidJson "desktop" = .error .jsonDecodeError := by
  exact ⟨rfl, rfl, rfl⟩

theorem extract_detailed_data_defensive_witness :
    (extract_detailed_data
        (.json (.obj (.cons "categories" (.obj .nil) (.cons "audits" (.obj .nil) .nil))))
        "desktop").lookup "performance_score" = some JVal.null :=
  (extract_detailed_data_defensive.2.2
    (.cons "categories" (.obj .nil) (.cons "audits" (.obj .nil) .nil)) .nil .nil "desktop"
    rfl rfl rfl rfl rfl rfl rfl rfl rfl rfl rfl rfl rfl).1

end LighthouseBulkScan

namespace LighthouseBulkScan

/-- **C7 (counterexample).** CSV mode does not deduplicate: a CSV whose first
column repeats a URL hands the duplicated collection to the scheduling loop
(the slice `[:max_urls]` is applied to the raw appended list). -/
theorem gather_csv_urls_keeps_duplicates :
    gather_csv_urls [["http://a.com"], ["http://a.com"]] 99999 =
      ["http://a.com", "http://a.com"] ∧
    ¬ (gather_csv_urls [["http://a.com"], ["http://a.com"]] 99999).Nodup := by
  refine ⟨rfl, ?_⟩
  decide

/-- **C7 (amended).** The single-URL collection is trivially duplicate-free
and the sitemap-mode collection is deduplicated (set semantics) before the
`max_urls` truncation, and contains only discovered URLs; the CSV-mode
collection, by contrast, preserves first-column duplicates (see the
counterexample). -/
theorem gather_urls_dedup :
    (∀ t, (gather_single_url t).Nodup) ∧
    (∀ res n, (gather_sitemap_urls res n).Nodup) ∧
    (∀ res n, gather_sitemap_urls res n ⊆ res.foldl (fun acc l => acc ++ l) []) ∧
    (∀ rows n, gather_csv_urls rows n =
      (rows.filterMap fun row =>
        match row with
        | [] => none
        | c :: _ => if (pyStrip c).isEmpty then none
                    else some (pyStrip c)).take n) := by
  refine ⟨fun t => List.nodup_singleton _, fun res n => ?_, fun res n u hu => ?_,
    fun rows n => rfl⟩
  · exact (List.take_sublist _ _).nodup (List.nodup_dedup _)
  · have h1 : u ∈ (res.foldl (fun acc l => acc ++ l) []).dedup :=
      (List.take_subset _ _) hu
    exact (List.mem_dedup).mp h1

theorem gather_urls_dedup_witness :
    ("http://a.com" : String) ∈
      ([["http://a.com", "http://b.com"], ["http://a.com"]].foldl
        (fun acc l => acc ++ l) ([] : List String)) :=
  gather_urls_dedup.2.2.1 [["http://a.com", "http://b.com"], ["http://a.com"]] 5
    (by decide : ("http://a.com" : String) ∈
      gather_sitemap_urls [["http://a.com", "http://b.com"], ["http://a.com"]] 5)

end LighthouseBulkScan

namespace LighthouseBulkScan

/-- The all-`'---'` row used as a `getD` default. -/
def blankRow : Row := fun _ => Cell.unavailable

lemma avgRow_mode (label : String) (rows : List Row) :
    avgRow label rows Col.mode = Cell.s label := rfl

lemma avgRow_numeric (label : String) (rows : List Row) (c : Col)
    (hc : c ∈ numeric_cols) (hne : rows ≠ []) :
    avgRow label rows c =
      (if (colVals rows c).isEmpty then Cell.nan
       else Cell.q ((colVals rows c).sum / (colVals rows c).length)) := by
  have hemp : rows.isEmpty = false := by
    cases rows with
    | nil => exact absurd rfl hne
    | cons a l => rfl
  have hcm : ¬ c = Col.mode := by
    intro h
    subst h
    simp [numeric_cols] at hc
  have hcontains : numeric_cols.contains c = true := by
    fin_cases hc <;> rfl
  unfold avgRow colMean
  rw [if_neg hcm, hemp]
  simp [hcontains, hc]

lemma avgRow_unavailable (label : String) (rows : List Row) (c : Col)
    (hcm : c ≠ Col.mode) (hcn : c ∉ numeric_cols) :
    avgRow label rows c = Cell.unavailable := by
  have hcontains : numeric_cols.contains c = false := by
    cases c <;> first
      | rfl
      | exact absurd (by decide) hcn
  unfold avgRow
  rw [if_neg hcm]
  by_cases he : rows.isEmpty
  · rw [he]
    rfl
  · simp only [Bool.not_eq_true] at he
    rw [he, hcontains]
    rfl

lemma avgRow_empty (label : String) (c : Col) (hcm : c ≠ Col.mode) :
    avgRow label [] c = Cell.unavailable := by
  unfold avgRow
  rw [if_neg hcm]
  rfl

/-- **C8 (amended).** When at least one result was collected, the summary
table is the desktop average row, then the mobile average row, then every
per-run row in order.  In each average row the `mode` column carries the
label; each of the eleven designated numeric columns holds the arithmetic
mean of that column's present values over that mode's rows (`NaN` when none
are present, `'---'` when the mode has no rows at all); and every other
column — the string columns *and* the numeric `run_iteration` column — holds
the `'---'` sentinel. -/
theorem summaryTable_spec (records : List Row) (h : records ≠ []) :
    (summaryTable records).length = records.length + 2 ∧
    (summaryTable records).drop 2 = records ∧
    ((summaryTable records).getD 0 blankRow) Col.mode = Cell.s "desktop-AVERAGE" ∧
    ((summaryTable records).getD 1 blankRow) Col.mode = Cell.s "mobile-AVERAGE" ∧
    (∀ c ∈ numeric_cols, modeRows records "desktop" ≠ [] →
      ((summaryTable records).getD 0 blankRow) c =
        (if (colVals (modeRows records "desktop") c).isEmpty then Cell.nan
         else Cell.q ((colVals (modeRows records "desktop") c).sum /
            (colVals (modeRows records "desktop") c).length))) ∧
    (∀ c ∈ numeric_cols, modeRows records "mobile" ≠ [] →
      ((summaryTable records).getD 1 blankRow) c =
        (if (colVals (modeRows records "mobile") c).isEmpty then Cell.nan
         else Cell.q ((colVals (modeRows records "mobile") c).sum /
            (colVals (modeRows records "mobile") c).length))) ∧
    (∀ c, c ≠ Col.mode → c ∉ numeric_cols →
      ((summaryTable records).getD 0 blankRow) c = Cell.unavailable ∧
      ((summaryTable records).getD 1 blankRow) c = Cell.unavailable) ∧
    (modeRows records "desktop" = [] → ∀ c, c ≠ Col.mode →
      ((summaryTable records).getD 0 blankRow) c = Cell.unavailable) ∧
    (modeRows records "mobile" = [] → ∀ c, c ≠ Col.mode →
      ((summaryTable records).getD 1 blankRow) c = Cell.unavailable) := by
  have h0 : (summaryTable records).getD 0 blankRow =
      avgRow "desktop-AVERAGE" (modeRows records "desktop") := rfl
  have h1 : (summaryTable records).getD 1 blankRow =
      avgRow "mobile-AVERAGE" (modeRows records "mobile") := rfl
  refine ⟨by simp [summaryTable], by simp [summaryTable], by rw [h0]; rfl, by rw [h1]; rfl,
    ?_, ?_, ?_, ?_, ?_⟩
  · intro c hc hne
    rw [h0, avgRow_numeric _ _ c hc hne]
  · intro c hc hne
    rw [h1, avgRow_numeric _ _ c hc hne]
  · intro c hcm hcn
    exact ⟨by rw [h0, avgRow_unavailable _ _ c hcm hcn],
           by rw [h1, avgRow_unavailable _ _ c hcm hcn]⟩
  · intro hd c hcm
    rw [h0, hd, avgRow_empty _ c hcm]
  · intro hm c hcm
    rw [h1, hm, avgRow_empty _ c hcm]

/-- A per-run desktop row whose `run_iteration` is the number `1`. -/
def cexRow : Row := fun c =>
  match c with
  | Col.mode => Cell.s "desktop"
  | Col.url => Cell.s "http://a.com"
  | Col.requested_url => Cell.s "http://a.com"
  | Col.lighthouse_version => Cell.s "11.0"
  | Col.fetch_time => Cell.s "2024-01-01"
  | Col.run_iteration => Cell.q 1
  | _ => Cell.q 1

/-- **C8 (counterexample).** `run_iteration` is a numeric column of the
per-run rows, yet the prepended desktop average row holds the `'---'`
sentinel there rather than the column's mean (which would be `1` for this
batch): the claim "every numeric column equals the arithmetic mean" fails on
it. -/
theorem summary_run_iteration_unavailable :
    ((summaryTable [cexRow]).getD 0 blankRow) Col.run_iteration = Cell.unavailable ∧
    (cexRow Col.run_iteration).numVal = some 1 ∧
    colVals (modeRows [cexRow] "desktop") Col.run_iteration = [1] ∧
    Cell.unavailable ≠ Cell.q 1 := by
  refine ⟨rfl, rfl, rfl, by simp⟩

/-- Two desktop and two mobile rows with known scores (the spec's averaging
scenario). -/
def wRow (m : String) (score iter : ℚ) : Row := fun c =>
  match c with
  | Col.mode => Cell.s m
  | Col.url => Cell.s "http://a.com"
  | Col.requested_url => Cell.s "http://a.com"
  | Col.lighthouse_version => Cell.s "11.0"
  | Col.fetch_time => Cell.s "2024-01-01"
  | Col.run_iteration => Cell.q iter
  | _ => Cell.q score

/-- The witness batch: known desktop scores `4/5`, `3/5` and mobile scores
`1/2`, `1/4`. -/
def wRows : List Row :=
  [wRow "desktop" (4/5) 1, wRow "desktop" (3/5) 2,
   wRow "mobile" (1/2) 1, wRow "mobile" (1/4) 2]

theorem summaryTable_spec_witness :
    (summaryTable wRows).length = wRows.length + 2 ∧
    ((summaryTable wRows).getD 0 blankRow) Col.performance_score = Cell.q (7/10) ∧
    ((summaryTable wRows).getD 1 blankRow) Col.performance_score = Cell.q (3/8) ∧
    ((summaryTable wRows).getD 0 blankRow) Col.url = Cell.unavailable := by
  have hd : modeRows wRows "desktop" = [wRow "desktop" (4/5) 1, wRow "desktop" (3/5) 2] := rfl
  have hm : modeRows wRows "mobile" = [wRow "mobile" (1/2) 1, wRow "mobile" (1/4) 2] := rfl
  have H := summaryTable_spec wRows (by simp [wRows])
  refine ⟨H.1, ?_, ?_, (H.2.2.2.2.2.2.1 Col.url (by simp) (by decide)).1⟩
  · have h := H.2.2.2.2.1 Col.performance_score (by decide)
      (by rw [hd]; exact List.cons_ne_nil _ _)
    rw [h]
    have hv : colVals (modeRows wRows "desktop") Col.performance_score = [4/5, 3/5] := rfl
    rw [hv]
    norm_num
  · have h := H.2.2.2.2.2.1 Col.performance_score (by decide)
      (by rw [hm]; exact List.cons_ne_nil _ _)
    rw [h]
    have hv : colVals (modeRows wRows "mobile") Col.performance_score = [1/2, 1/4] := rfl
    rw [hv]
    norm_num

end LighthouseBulkScan
